import Mathlib

/-!
Shallow embedding of the task-list mobile application:
the HomeScreen component (src/src/screens/HomeScreen.tsx) and the
navigator's route contract (RootStackParamList).

HomeScreen keeps three pieces of React state (tasks, loading, searchTerm)
and issues asynchronous fetches.  We embed the screen as an event-driven
state machine: a fetch is split into its start (setLoading(true) and the
GET being issued) and its resolution (success: setTasks(response.data);
failure: Alert.alert; both followed by the finally clause
setLoading(false)).  In-flight fetches are recorded as the list of their
query strings; alerts are counted.  Date parsing and locale formatting
(new Date(...), toLocaleDateString) are abstracted as parameters.
-/

set_option autoImplicit false

namespace TaskApp

/-- The Task record of HomeScreen.tsx: id, title, optional dueDate,
completed. -/
structure Task where
  id : String
  title : String
  dueDate : Option String
  completed : Bool
deriving DecidableEq, Repr

instance : Inhabited Task := ⟨⟨"", "", none, false⟩⟩

/-- Theme.text color constant from HomeScreen.tsx. -/
def Theme.text : String := "#1F2937"

/-- Theme.primary color constant from HomeScreen.tsx. -/
def Theme.primary : String := "#2563EB"

/-- Theme.success color constant from HomeScreen.tsx. -/
def Theme.success : String := "#10B981"

/-- Theme.danger color constant from HomeScreen.tsx. -/
def Theme.danger : String := "#EF4444"

/-- Theme.API_URL from HomeScreen.tsx (Android emulator localhost). -/
def Theme.API_URL : String := "http://10.0.2.2:3000/api/tasks"

/-- The three named routes of RootStackParamList (AppNavigator): home and
add carry no parameters, detail requires a taskId string. -/
inductive Route where
  | home
  | add
  | detail (taskId : String)
deriving DecidableEq, Repr

/-- The parameter carried by a route: detail carries its taskId, home and
add carry nothing. -/
def routeParams : Route → Option String
  | Route.detail taskId => some taskId
  | Route.home => none
  | Route.add => none

/-- navigateToDetail of HomeScreen.tsx: navigation.navigate with the
detail route and the given taskId. -/
def navigateToDetail (taskId : String) : Route := Route.detail taskId

/-- The FAB action of HomeScreen.tsx: navigation.navigate to the add
route, no parameters. -/
def fabAction : Route := Route.add

/-- The URL of the GET issued by fetchTasks: a template-literal
concatenation of Theme.API_URL, the text "?search=" and the raw query,
with no percent-encoding applied. -/
def requestUrl (searchQuery : String) : String :=
  Theme.API_URL ++ "?search=" ++ searchQuery

/-- The React state of HomeScreen (tasks, loading, searchTerm) together
with the bookkeeping our event semantics needs: the queries of the
fetches currently in flight and the number of alerts shown so far. -/
structure HomeState where
  tasks : List Task
  loading : Bool
  searchTerm : String
  inflight : List String
  alertCount : Nat
deriving DecidableEq, Repr

/-- The initial state of HomeScreen: useState gives an empty task list,
loading false and the empty search term; nothing is in flight and no
alert has been shown. -/
def initState : HomeState :=
  { tasks := [], loading := false, searchTerm := "", inflight := [], alertCount := 0 }

/-- The first half of fetchTasks (HomeScreen.tsx lines 96-99): setLoading
(true) and the GET with the given query is issued, becoming in flight. -/
def fetchTasksStart (s : HomeState) (searchQuery : String) : HomeState :=
  { s with loading := true, inflight := s.inflight ++ [searchQuery] }

/-- Successful resolution of the i-th in-flight fetch with response body
data: setTasks(response.data) then, in the finally clause, setLoading
(false).  An index that names no in-flight fetch changes nothing. -/
def fetchTasksOk (s : HomeState) (i : Nat) (data : List Task) : HomeState :=
  if i < s.inflight.length then
    { s with tasks := data, loading := false, inflight := s.inflight.eraseIdx i }
  else s

/-- Failed resolution (network error, non-2xx or parse error, all
collapsed by the single catch clause) of the i-th in-flight fetch:
Alert.alert shows one alert, the task list is untouched, then the
finally clause runs setLoading(false).  No retry is started. -/
def fetchTasksErr (s : HomeState) (i : Nat) : HomeState :=
  if i < s.inflight.length then
    { s with alertCount := s.alertCount + 1, loading := false,
             inflight := s.inflight.eraseIdx i }
  else s

/-- handleSearch of HomeScreen.tsx: setSearchTerm(term). -/
def handleSearch (s : HomeState) (term : String) : HomeState :=
  { s with searchTerm := term }

/-- The events HomeScreen reacts to.  mount fires the first useEffect;
searchChange is a keystroke in the search field (handleSearch followed by
the useEffect on searchTerm); focus is the navigation focus listener;
refresh is the FlatList onRefresh callback; resolveOk and resolveErr
resolve an in-flight fetch. -/
inductive Event where
  | mount
  | searchChange (term : String)
  | focus
  | refresh
  | resolveOk (i : Nat) (data : List Task)
  | resolveErr (i : Nat)

/-- One step of the HomeScreen state machine.  mount, focus and refresh
call fetchTasks(searchTerm).  A searchChange to the current term is a
no-op (React bails out of a state update to an identical value, so the
useEffect on searchTerm does not re-run); otherwise the term is stored
and fetchTasks(searchTerm) runs with the new term. -/
def step (s : HomeState) : Event → HomeState
  | Event.mount => fetchTasksStart s s.searchTerm
  | Event.searchChange t =>
      if t = s.searchTerm then s else fetchTasksStart (handleSearch s t) t
  | Event.focus => fetchTasksStart s s.searchTerm
  | Event.refresh => fetchTasksStart s s.searchTerm
  | Event.resolveOk i data => fetchTasksOk s i data
  | Event.resolveErr i => fetchTasksErr s i

/-- Run a list of events from a state. -/
def run (s : HomeState) (es : List Event) : HomeState :=
  es.foldl step s

/-- isOverdue of TaskCard (HomeScreen.tsx line 49): item.dueDate must be
truthy (present and non-empty), the item not completed, and the parsed
due date strictly before now.  parseDate abstracts the JavaScript Date
constructor; an invalid date (none) compares false. -/
def isOverdue (parseDate : String → Option Int) (now : Int) (item : Task) : Bool :=
  match item.dueDate with
  | none => false
  | some d =>
      if d = "" then false
      else
        !item.completed &&
          (match parseDate d with
           | none => false
           | some t => decide (t < now))

/-- formattedDate of TaskCard (HomeScreen.tsx lines 51-53): a truthy
dueDate is formatted by toLocaleDateString (abstracted as fmt), otherwise
the placeholder "Tarih Yok" is shown. -/
def formattedDate (fmt : String → String) (item : Task) : String :=
  match item.dueDate with
  | none => "Tarih Yok"
  | some d => if d = "" then "Tarih Yok" else fmt d

/-- A rendered row of the task list: what TaskCard shows for one task,
plus the navigation target of tapping it and its FlatList key. -/
structure Row where
  key : String
  title : String
  titleStruckThrough : Bool
  iconName : String
  iconColor : String
  dateText : String
  dateColor : String
  tapTarget : Route
deriving DecidableEq, Repr

/-- TaskCard of HomeScreen.tsx: icon check-circle in the success color
for a completed task, circle in the primary color otherwise; the title
struck through when completed; the formatted date in the danger color
when overdue, in the text color otherwise; tapping runs onTap. -/
def TaskCard (parseDate : String → Option Int) (now : Int) (fmt : String → String)
    (item : Task) (onTap : Route) : Row :=
  { key := item.id,
    title := item.title,
    titleStruckThrough := item.completed,
    iconName := if item.completed then "check-circle" else "circle",
    iconColor := if item.completed then Theme.success else Theme.primary,
    dateText := formattedDate fmt item,
    dateColor := if isOverdue parseDate now item then Theme.danger else Theme.text,
    tapTarget := onTap }

/-- renderItem of HomeScreen.tsx: a TaskCard whose onTap is
navigateToDetail(item.id). -/
def renderItem (parseDate : String → Option Int) (now : Int) (fmt : String → String)
    (item : Task) : Row :=
  TaskCard parseDate now fmt item (navigateToDetail item.id)

/-- ListEmptyComponent text of the FlatList. -/
def emptyText : String := "Henüz görev yok. Yeni bir görev ekleyin."

/-- What the body of HomeScreen shows: either the centered spinner or the
FlatList with its rows and, when the data is empty, the empty message. -/
inductive View where
  | spinner
  | list (rows : List Row) (emptyMessage : Option String)
deriving DecidableEq, Repr

/-- The render of HomeScreen.tsx lines 143-159: if loading and the task
list is empty, the ActivityIndicator; otherwise the FlatList over tasks,
whose ListEmptyComponent shows the empty message when tasks is empty. -/
def render (parseDate : String → Option Int) (now : Int) (fmt : String → String)
    (s : HomeState) : View :=
  if s.loading && (s.tasks.length == 0) then View.spinner
  else
    View.list (s.tasks.map (renderItem parseDate now fmt))
      (if s.tasks.length == 0 then some emptyText else none)

/-- A concrete state with one fetch in flight, used to instantiate
hypotheses of the theorems below. -/
def oneInflightState : HomeState :=
  { tasks := [⟨"7", "süt al", some "2024-01-01", false⟩],
    loading := true, searchTerm := "süt", inflight := ["süt"], alertCount := 0 }

/-- C1: a failed fetch leaves the task list unchanged at its previous
value, shows exactly one alert, removes the fetch from flight without
issuing any new one (no retry), and leaves the search term as it was. -/
theorem c1_fetch_failure_stale_one_alert_no_retry (s : HomeState) (i : Nat)
    (h : i < s.inflight.length) :
    (fetchTasksErr s i).tasks = s.tasks ∧
    (fetchTasksErr s i).alertCount = s.alertCount + 1 ∧
    (fetchTasksErr s i).inflight = s.inflight.eraseIdx i ∧
    (fetchTasksErr s i).inflight.length = s.inflight.length - 1 ∧
    (fetchTasksErr s i).searchTerm = s.searchTerm := by
  have hlen : (s.inflight.eraseIdx i).length + 1 = s.inflight.length :=
    List.length_eraseIdx_add_one h
  simp only [fetchTasksErr, if_pos h]
  exact ⟨trivial, trivial, trivial, by omega, trivial⟩

/-- C1 witness: the failing fetch of oneInflightState. -/
theorem c1_witness :
    0 < oneInflightState.inflight.length ∧
    (fetchTasksErr oneInflightState 0).tasks = oneInflightState.tasks ∧
    (fetchTasksErr oneInflightState 0).alertCount = oneInflightState.alertCount + 1 :=
  ⟨by decide,
   (c1_fetch_failure_stale_one_alert_no_retry oneInflightState 0 (by decide)).1,
   (c1_fetch_failure_stale_one_alert_no_retry oneInflightState 0 (by decide)).2.1⟩

/-- C7: a focus event starts exactly one new fetch, whose query is the
currently-held search term; the loading flag goes true and neither the
task list nor the search term changes. -/
theorem c7_focus_refetches_current_term (s : HomeState) :
    (step s Event.focus).inflight = s.inflight ++ [s.searchTerm] ∧
    (step s Event.focus).loading = true ∧
    (step s Event.focus).searchTerm = s.searchTerm ∧
    (step s Event.focus).tasks = s.tasks ∧
    (step s Event.focus).alertCount = s.alertCount := by
  simp [step, fetchTasksStart]

/-- C8: tapping a rendered row navigates to the detail route carrying
exactly that row's task id; the add button navigates to the add route;
detail is the only route carrying a parameter, home and add carry none. -/
theorem c8_navigation_targets_and_params (parseDate : String → Option Int)
    (now : Int) (fmt : String → String) (item : Task) :
    (renderItem parseDate now fmt item).tapTarget = Route.detail item.id ∧
    routeParams (Route.detail item.id) = some item.id ∧
    fabAction = Route.add ∧
    routeParams Route.add = none ∧
    routeParams Route.home = none := by
  simp [renderItem, TaskCard, navigateToDetail, fabAction, routeParams]

/-- C9: a task whose dueDate is absent, or present but the empty string,
is never flagged overdue, for every parse function, every current time
and even when the task is not completed. -/
theorem c9_no_due_date_never_overdue (parseDate : String → Option Int)
    (now : Int) (item : Task)
    (h : item.dueDate = none ∨ item.dueDate = some "") :
    isOverdue parseDate now item = false := by
  rcases h with h | h <;> simp [isOverdue, h]

/-- C9 witness: an uncompleted task with no due date, and one with an
empty-string due date, under a parse function that would call any string
long past due. -/
theorem c9_witness :
    isOverdue (fun _ => some (-1000)) 0 ⟨"1", "görev", none, false⟩ = false ∧
    isOverdue (fun _ => some (-1000)) 0 ⟨"2", "görev", some "", false⟩ = false :=
  ⟨c9_no_due_date_never_overdue (fun _ => some (-1000)) 0 ⟨"1", "görev", none, false⟩
     (Or.inl rfl),
   c9_no_due_date_never_overdue (fun _ => some (-1000)) 0 ⟨"2", "görev", some "", false⟩
     (Or.inr rfl)⟩

/-- Helper: getD over a mapped list with a mapped default. -/
theorem getD_map_of_default {α β : Type} (f : α → β) (l : List α) (j : Nat) (d : α) :
    (l.map f).getD j (f d) = f (l.getD j d) := by
  induction l generalizing j with
  | nil => simp [List.getD]
  | cons x xs ih =>
    cases j with
    | zero => simp [List.getD]
    | succ n =>
      simp only [List.map_cons, List.getD_cons_succ]
      exact ih n

/-- C2: a change of the search term to t stores t, starts exactly one new
fetch whose query is t, whose URL is the base URL followed by the text
"?search=" and t; resolving that fetch successfully replaces the whole
task list by the response body; and the mount fetch carries the empty
search term. -/
theorem c2_search_change_one_get_full_replacement (s : HomeState) (t : String)
    (h : t ≠ s.searchTerm) :
    (step s (Event.searchChange t)).searchTerm = t ∧
    (step s (Event.searchChange t)).inflight = s.inflight ++ [t] ∧
    (step s (Event.searchChange t)).loading = true ∧
    requestUrl t = "http://10.0.2.2:3000/api/tasks?search=" ++ t ∧
    (∀ data : List Task,
      (fetchTasksOk (step s (Event.searchChange t)) s.inflight.length data).tasks
        = data) ∧
    (step initState Event.mount).inflight = [""] := by
  refine ⟨?_, ?_, ?_, rfl, ?_, rfl⟩ <;>
    simp [step, if_neg h, fetchTasksStart, handleSearch, fetchTasksOk]

/-- C2 witness: changing the search term of the initial state to milk. -/
theorem c2_witness :
    ("milk" : String) ≠ initState.searchTerm ∧
    (step initState (Event.searchChange "milk")).inflight
      = initState.inflight ++ ["milk"] ∧
    (fetchTasksOk (step initState (Event.searchChange "milk"))
        initState.inflight.length [⟨"1", "süt al", none, false⟩]).tasks
      = [⟨"1", "süt al", none, false⟩] :=
  ⟨by decide,
   (c2_search_change_one_get_full_replacement initState "milk" (by decide)).2.1,
   (c2_search_change_one_get_full_replacement initState "milk"
      (by decide)).2.2.2.2.1 [⟨"1", "süt al", none, false⟩]⟩

/-- C3: a task with a truthy dueDate that parses to a time strictly
before now and whose completed flag is false is flagged overdue and its
date is rendered in the danger color; a completed task is never flagged
overdue and its date keeps the plain text color, whatever its dueDate. -/
theorem c3_overdue_iff_past_and_uncompleted (parseDate : String → Option Int)
    (now t : Int) (fmt : String → String) (item : Task) (d : String) (r : Route)
    (hc : item.completed = false) (hd : item.dueDate = some d) (hne : d ≠ "")
    (hp : parseDate d = some t) (hlt : t < now) :
    isOverdue parseDate now item = true ∧
    (TaskCard parseDate now fmt item r).dateColor = Theme.danger ∧
    (∀ (item2 : Task) (r2 : Route), item2.completed = true →
      isOverdue parseDate now item2 = false ∧
      (TaskCard parseDate now fmt item2 r2).dateColor = Theme.text) := by
  have hov : isOverdue parseDate now item = true := by
    simp [isOverdue, hd, hne, hp, hc, hlt]
  refine ⟨hov, by simp [TaskCard, hov], ?_⟩
  intro item2 r2 hc2
  obtain ⟨i2, t2, dd, comp⟩ := item2
  simp only at hc2
  subst hc2
  have hov2 : isOverdue parseDate now ⟨i2, t2, dd, true⟩ = false := by
    cases dd <;> simp [isOverdue]
  exact ⟨hov2, by simp [TaskCard, hov2]⟩

/-- C3 witness: an uncompleted task due in 2020 under a clock sitting
strictly later, with a parse function mapping every string to time 0. -/
theorem c3_witness :
    isOverdue (fun _ => some 0) 1 ⟨"1", "ödev", some "2020-01-01", false⟩ = true :=
  (c3_overdue_iff_past_and_uncompleted (fun _ => some 0) 1 0 (fun s => s)
    ⟨"1", "ödev", some "2020-01-01", false⟩ "2020-01-01" Route.home
    rfl rfl (by decide) rfl (by decide)).1

/-- C5: a successful response with N task objects renders the list view
with exactly N rows; row j shows task j's title and its formatted due
date, and an absent dueDate formats to the placeholder "Tarih Yok". -/
theorem c5_success_renders_exactly_n_rows (parseDate : String → Option Int)
    (now : Int) (fmt : String → String) (s : HomeState) (i : Nat)
    (data : List Task) (h : i < s.inflight.length) :
    render parseDate now fmt (fetchTasksOk s i data)
      = View.list (data.map (renderItem parseDate now fmt))
          (if data.length == 0 then some emptyText else none) ∧
    (data.map (renderItem parseDate now fmt)).length = data.length ∧
    (∀ j : Nat, j < data.length →
      ((data.map (renderItem parseDate now fmt)).getD j
          (renderItem parseDate now fmt default)).title
        = (data.getD j default).title ∧
      ((data.map (renderItem parseDate now fmt)).getD j
          (renderItem parseDate now fmt default)).dateText
        = formattedDate fmt (data.getD j default)) ∧
    (∀ item : Task, item.dueDate = none → formattedDate fmt item = "Tarih Yok") := by
  refine ⟨?_, by simp, ?_, ?_⟩
  · simp [fetchTasksOk, if_pos h, render]
  · intro j hj
    rw [getD_map_of_default]
    exact ⟨rfl, rfl⟩
  · intro item hnone
    simp [formattedDate, hnone]

/-- C5 witness: resolving the in-flight fetch of oneInflightState with a
two-task response yields two rows. -/
theorem c5_witness :
    0 < oneInflightState.inflight.length ∧
    ([⟨"1", "a", none, false⟩, ⟨"2", "b", some "2030-01-01", true⟩].map
        (renderItem (fun _ => some 0) 0 (fun s => s))).length
      = ([⟨"1", "a", none, false⟩, ⟨"2", "b", some "2030-01-01", true⟩] : List Task).length :=
  ⟨by decide,
   (c5_success_renders_exactly_n_rows (fun _ => some 0) 0 (fun s => s)
      oneInflightState 0
      [⟨"1", "a", none, false⟩, ⟨"2", "b", some "2030-01-01", true⟩]
      (by decide)).2.1⟩

/-- C6: with an empty task list, a true loading flag renders the spinner
instead of the list, and a false loading flag renders the list view with
no rows and the empty-state message. -/
theorem c6_empty_list_spinner_or_message (parseDate : String → Option Int)
    (now : Int) (fmt : String → String) (s : HomeState) (h : s.tasks = []) :
    (s.loading = true → render parseDate now fmt s = View.spinner) ∧
    (s.loading = false →
      render parseDate now fmt s = View.list [] (some emptyText)) := by
  constructor <;> intro hl <;> simp [render, h, hl]

/-- C6 witness: the initial state is empty and not loading, so the empty
message is rendered; after mount it is empty and loading, so the spinner
shows. -/
theorem c6_witness :
    render (fun _ => none) 0 (fun s => s) initState
      = View.list [] (some emptyText) ∧
    render (fun _ => none) 0 (fun s => s) (step initState Event.mount)
      = View.spinner :=
  ⟨(c6_empty_list_spinner_or_message (fun _ => none) 0 (fun s => s) initState
      rfl).2 rfl,
   (c6_empty_list_spinner_or_message (fun _ => none) 0 (fun s => s)
      (step initState Event.mount) rfl).1 rfl⟩

/-- Split a character list at every occurrence of the separator. -/
def splitOnChar (c : Char) : List Char → List (List Char)
  | [] => [[]]
  | x :: xs =>
    match splitOnChar c xs with
    | [] => if x = c then [[], []] else [[x]]
    | y :: ys => if x = c then [] :: y :: ys else (x :: y) :: ys

/-- Split one query pair at its first equals sign into key and value. -/
def splitKeyVal (p : List Char) : List Char × List Char :=
  (p.takeWhile (fun c => c != '='),
   match p.dropWhile (fun c => c != '=') with
   | [] => []
   | _ :: v => v)

/-- The part of a URL after its first question mark. -/
def queryOf (url : String) : List Char :=
  match url.toList.dropWhile (fun c => c != '?') with
  | [] => []
  | _ :: rest => rest

/-- Standard query-string reading, as an HTTP server does it: pairs are
separated by ampersands and split at their first equals sign. -/
def queryParams (q : List Char) : List (List Char × List Char) :=
  (splitOnChar '&' q).map splitKeyVal

/-- The value a server reads for a key from a URL's query string. -/
def paramValue (url : String) (key : String) : Option String :=
  ((queryParams (queryOf url)).find? (fun kv => kv.fst == key.toList)).map
    (fun kv => String.mk kv.snd)

/-- C10: the request URL is the exact concatenation of the base URL,
the text "?search=" and the raw term, with no percent-encoding; hence
for a term holding an ampersand the search parameter a server reads
differs from the term the user typed. -/
theorem c10_no_percent_encoding :
    (∀ t : String, requestUrl t = "http://10.0.2.2:3000/api/tasks?search=" ++ t) ∧
    paramValue (requestUrl "milk&limit=1") "search" = some "milk" ∧
    some "milk" ≠ some ("milk&limit=1" : String) :=
  ⟨fun _ => rfl, by decide, by decide⟩

/-- Which events start a fetch: mount, a search change, focus and the
pull-to-refresh callback all call fetchTasks. -/
def startsFetch : Event → Bool
  | Event.mount => true
  | Event.searchChange _ => true
  | Event.focus => true
  | Event.refresh => true
  | Event.resolveOk _ _ => false
  | Event.resolveErr _ => false

/-- An event list is sequential from a state when every fetch-starting
event fires only while nothing is in flight: fetches never overlap. -/
def SequentialFetches : HomeState → List Event → Prop
  | _, [] => True
  | s, e :: es =>
    (startsFetch e = true → s.inflight = []) ∧ SequentialFetches (step s e) es

/-- One step keeps the invariant at most one fetch in flight, and loading
while one is, provided a fetch only starts when none is in flight. -/
theorem step_preserves_loading_inv (s : HomeState) (e : Event)
    (h1 : s.inflight.length ≤ 1) (h2 : s.inflight ≠ [] → s.loading = true)
    (hstart : startsFetch e = true → s.inflight = []) :
    (step s e).inflight.length ≤ 1 ∧
    ((step s e).inflight ≠ [] → (step s e).loading = true) := by
  cases e with
  | mount =>
    have he := hstart rfl
    simp [step, fetchTasksStart, he]
  | searchChange t =>
    by_cases hteq : t = s.searchTerm
    · have hs : step s (Event.searchChange t) = s := by simp [step, hteq]
      rw [hs]
      exact ⟨h1, h2⟩
    · have he := hstart rfl
      simp [step, hteq, fetchTasksStart, handleSearch, he]
  | focus =>
    have he := hstart rfl
    simp [step, fetchTasksStart, he]
  | refresh =>
    have he := hstart rfl
    simp [step, fetchTasksStart, he]
  | resolveOk i data =>
    by_cases hi : i < s.inflight.length
    · have hlen : (s.inflight.eraseIdx i).length + 1 = s.inflight.length :=
        List.length_eraseIdx_add_one hi
      have hnil : s.inflight.eraseIdx i = [] :=
        List.length_eq_zero.mp (by omega)
      simp [step, fetchTasksOk, if_pos hi, hnil]
    · have hs : step s (Event.resolveOk i data) = s := by
        simp [step, fetchTasksOk, hi]
      rw [hs]
      exact ⟨h1, h2⟩
  | resolveErr i =>
    by_cases hi : i < s.inflight.length
    · have hlen : (s.inflight.eraseIdx i).length + 1 = s.inflight.length :=
        List.length_eraseIdx_add_one hi
      have hnil : s.inflight.eraseIdx i = [] :=
        List.length_eq_zero.mp (by omega)
      simp [step, fetchTasksErr, if_pos hi, hnil]
    · have hs : step s (Event.resolveErr i) = s := by
        simp [step, fetchTasksErr, hi]
      rw [hs]
      exact ⟨h1, h2⟩

/-- A sequential run keeps at most one fetch in flight and loading true
whenever one is. -/
theorem run_sequential_loading_inv (es : List Event) :
    ∀ s : HomeState, s.inflight.length ≤ 1 → (s.inflight ≠ [] → s.loading = true) →
    SequentialFetches s es →
    (run s es).inflight.length ≤ 1 ∧
    ((run s es).inflight ≠ [] → (run s es).loading = true) := by
  induction es with
  | nil => exact fun s h1 h2 _ => ⟨h1, h2⟩
  | cons e es ih =>
    intro s h1 h2 hseq
    obtain ⟨hstart, hrest⟩ := hseq
    have hinv := step_preserves_loading_inv s e h1 h2 hstart
    exact ih (step s e) hinv.1 hinv.2 hrest

/-- C4 counterexample: the claim that loading is true whenever at least
one fetch is in flight fails on the run mount, search change to a,
successful resolution of the mount fetch: the finally clause of the
first fetch clears the loading flag while the second is still in
flight. -/
theorem c4_counterexample :
    ¬ ∀ es : List Event,
        (run initState es).inflight = [] ∨ (run initState es).loading = true := by
  intro h
  have h2 := h [Event.mount, Event.searchChange "a", Event.resolveOk 0 []]
  revert h2
  decide

/-- C4 amended: in every run from the initial state in which fetches do
not overlap (each fetch starts only while none is in flight), the loading
flag is true at every moment at which a fetch is in flight.  With
overlapping fetches the claim fails: the resolution of an earlier fetch
sets loading to false while a later fetch is still in flight. -/
theorem c4_loading_during_sequential_fetches (es : List Event)
    (hseq : SequentialFetches initState es)
    (hne : (run initState es).inflight ≠ []) :
    (run initState es).loading = true :=
  (run_sequential_loading_inv es initState (by decide) (by decide) hseq).2 hne

/-- C4 witness: right after mount the single fetch is in flight and
loading is true. -/
theorem c4_witness :
    SequentialFetches initState [Event.mount] ∧
    (run initState [Event.mount]).inflight ≠ [] ∧
    (run initState [Event.mount]).loading = true :=
  ⟨⟨fun _ => rfl, True.intro⟩, by decide,
   c4_loading_during_sequential_fetches [Event.mount]
     ⟨fun _ => rfl, True.intro⟩ (by decide)⟩

end TaskApp
